import Mathlib

/-
Verification of the AI Interview Assistant repository.

The definitions below are a shallow embedding of the interview
orchestrator: the Perplexity provider adapter (src/src/utils/perplexityAPI.js),
the interview session component (src/src/components/IntervieweeTab.jsx), the
question bank (src/src/utils/defaultQuestions.js) and the Redux candidates
slice (candidatesSlice.js).  JS numbers are modelled by Rat (scores) and Int
(timers); JS strings by String, with the handful of string primitives the code
uses (trim, toLowerCase, includes, split, startsWith) re-implemented on the
character list so everything evaluates inside the kernel.  Network calls are
modelled by lists of pre-determined outcomes (one entry per provider/model
attempt, none meaning a failed request), and each entry point also reports how
many network requests it issued.
-/

namespace InterviewApp

/-! ## JS string primitives, modelled on character lists -/

/-- Does the second list start with the first one (char-by-char comparison)? -/
def charsStartWith : List Char → List Char → Bool
  | [], _ => true
  | _ :: _, [] => false
  | a :: as, b :: bs => a == b && charsStartWith as bs

/-- JS String.prototype.includes: is the needle a contiguous part of the hay? -/
def charsContain (needle : List Char) : List Char → Bool
  | [] => needle.isEmpty
  | c :: rest => charsStartWith needle (c :: rest) || charsContain needle rest

/-- hay.includes(needle) of JS. -/
def jsIncludes (hay needle : String) : Bool :=
  charsContain needle.data hay.data

/-- Whitespace recognised by JS trim (ASCII fragment; the repository only ever
trims ASCII text). -/
def isJsSpace (c : Char) : Bool :=
  c == ' ' || c == '\t' || c == '\n' || c == '\r' || c == Char.ofNat 11 || c == Char.ofNat 12

/-- JS String.prototype.trim. -/
def jsTrim (s : String) : String :=
  String.mk (((s.data.dropWhile isJsSpace).reverse.dropWhile isJsSpace).reverse)

/-- JS String.prototype.toLowerCase (ASCII). -/
def jsToLower (s : String) : String :=
  String.mk (s.data.map Char.toLower)

/-- JS String.prototype.startsWith. -/
def jsStartsWith (s pre : String) : Bool :=
  charsStartWith pre.data s.data

/-- content.split for a single newline separator, on character lists. -/
def splitLinesChars : List Char → List (List Char)
  | [] => [[]]
  | c :: rest =>
    let r := splitLinesChars rest
    if c == '\n' then [] :: r
    else
      match r with
      | [] => [[c]]
      | l :: ls => (c :: l) :: ls

/-- content.split of JS, with separator the newline character. -/
def jsSplitNewline (s : String) : List String :=
  (splitLinesChars s.data).map String.mk

/-- JS Math.round: round half toward positive infinity, as the floor of
q + 1/2. -/
def jsRound (q : ℚ) : ℤ :=
  ⌊q + 1/2⌋

/-! ## Data model (spec section 3, shapes taken from the JSX/slice code) -/

/-- One entry of the static question bank
(src/src/utils/defaultQuestions.js). -/
structure BankQuestion where
  question : String
  difficulty : String
  timeLimit : Nat
deriving DecidableEq

/-- defaultQuestions from src/src/utils/defaultQuestions.js, verbatim. -/
def defaultQuestions : List BankQuestion :=
  [{ question := "What is the difference between let, const, and var in JavaScript?",
     difficulty := "Easy", timeLimit := 20 },
   { question := "Explain how React's virtual DOM works and why it's beneficial.",
     difficulty := "Easy", timeLimit := 20 },
   { question := "Describe the concept of closures in JavaScript with an example.",
     difficulty := "Medium", timeLimit := 60 },
   { question := "How would you implement a debounce function in JavaScript?",
     difficulty := "Medium", timeLimit := 60 },
   { question := "Explain the concept of server-side rendering in React and its advantages.",
     difficulty := "Hard", timeLimit := 120 },
   { question := "Design a scalable state management solution for a complex React application.",
     difficulty := "Hard", timeLimit := 120 }]

/-- A question attached to a session (id added by generateQuestionsBatch). -/
structure Question where
  id : String
  question : String
  difficulty : String
  timeLimit : Nat
deriving DecidableEq

/-- A question as produced by the provider parsing layer, before ids are
assigned (the object literals built inside PerplexityAPI.generateQuestions). -/
structure RawQuestion where
  question : String
  difficulty : String
  timeLimit : Nat
deriving DecidableEq

/-- An answer record as appended by submitAnswer (IntervieweeTab.jsx). -/
structure Answer where
  questionId : String
  text : String
  score : Option ℚ
  feedback : Option String
  timestamp : String
deriving DecidableEq

/-- The per-candidate session record stored in the Redux slice. -/
structure Candidate where
  id : String
  name : String
  interviewStatus : String
  questions : List Question
  answers : List Answer
  currentQuestionIndex : Nat
  timeLeft : Int
  isPaused : Bool
  score : Option ℚ
  summary : Option String
  completedAt : Option String
deriving DecidableEq

/-- A score/feedback pair as returned by PerplexityAPI.evaluateAnswer. -/
structure Evaluation where
  score : ℚ
  feedback : String
deriving DecidableEq

/-- JS a.score || 0 : a missing (null/undefined) score counts as 0; a stored
0 is falsy in JS but 0 is substituted, so the value is the same. -/
def scoreOr0 (a : Answer) : ℚ :=
  match a.score with
  | none => 0
  | some v => v

/-! ## Provider adapter: credential checks (perplexityAPI.js) -/

/-- PerplexityAPI.isApiKeyAvailable (perplexityAPI.js lines 53-97). -/
def isApiKeyAvailable (key : String) : Bool :=
  if key = "" then false
  else if key = "undefined" then false
  else if jsTrim key = "" then false
  else if jsTrim key = "your_perplexity_api_key_here" then false
  else if !(jsStartsWith (jsTrim key) "pplx-") then false
  else if (jsTrim key).length < 30 then false
  else true

/-- PerplexityAPI.checkApiKey (perplexityAPI.js lines 99-123). -/
def checkApiKey (key : String) : Bool :=
  if key = "" ∨ key = "undefined" ∨ jsTrim key = "" then false
  else jsStartsWith (jsTrim key) "pplx-"

/-! ## Provider adapter: question generation (perplexityAPI.js lines 188-334) -/

/-- The time limit keyed on the lowercase difficulty string, as in the inline
ternary difficulty === 'easy' ? 20 : difficulty === 'medium' ? 60 : 120. -/
def difficultyTimeLimit (difficulty : String) : Nat :=
  if difficulty = "easy" then 20 else if difficulty = "medium" then 60 else 120

/-- line.match of the anchored numbered-item pattern (a digit run, a dot,
optional whitespace, then the captured rest), returning the trimmed capture.
Skipping leading whitespace then trimming equals trimming the whole rest. -/
def numberedQuestionText (line : String) : Option String :=
  let cs := line.data
  let digits := cs.takeWhile Char.isDigit
  let rest := cs.dropWhile Char.isDigit
  if digits.length = 0 then none
  else
    match rest with
    | '.' :: rest2 => if rest2 = [] then none else some (jsTrim (String.mk rest2))
    | _ => none

/-- The parsing layer of PerplexityAPI.generateQuestions (lines 246-277):
split into non-blank lines, collect numbered questions longer than 10 chars;
if none, fall back to trimmed lines longer than 20 chars containing a
question mark, stopping at count. -/
def parsePerplexityQuestions (content : String) (difficulty : String) (count : Nat) :
    List RawQuestion :=
  let lines := (jsSplitNewline content).filter (fun line => decide (jsTrim line ≠ ""))
  let numbered := lines.filterMap (fun line =>
    match numberedQuestionText line with
    | some questionText =>
        if questionText.length > 10 then
          some ({ question := questionText, difficulty := difficulty,
                  timeLimit := difficultyTimeLimit difficulty } : RawQuestion)
        else none
    | none => none)
  if numbered.length = 0 then
    ((lines.filter (fun line =>
        decide ((jsTrim line).length > 20) && jsIncludes (jsTrim line) "?")).map
      (fun line => ({ question := jsTrim line, difficulty := difficulty,
                      timeLimit := difficultyTimeLimit difficulty } : RawQuestion))).take count
  else numbered

/-- One model attempt of generateQuestions: the 200-response content is parsed
and, when at least one question was extracted, returned sliced to count
(lines 279-283); otherwise the attempt fails and the loop advances. -/
def acceptModelBatch (content : String) (difficulty : String) (count : Nat) :
    Option (List RawQuestion) :=
  let questions := parsePerplexityQuestions content difficulty count
  if questions.length > 0 then some (questions.take count) else none

/-- The for-model loop of generateQuestions: walk the outcome of each model
request (none = request failed) until one batch is accepted; also count the
requests issued. -/
def chainAttempts (difficulty : String) (count : Nat) :
    List (Option String) → Option (List RawQuestion) × Nat
  | [] => (none, 0)
  | outcome :: rest =>
    match outcome with
    | some content =>
      match acceptModelBatch content difficulty count with
      | some qs => (some qs, 1)
      | none =>
        let r := chainAttempts difficulty count rest
        (r.1, r.2 + 1)
    | none =>
      let r := chainAttempts difficulty count rest
      (r.1, r.2 + 1)

/-- PerplexityAPI.generateQuestions: empty on a failed credential check; the
model loop otherwise, with the shuffled hard-coded fallback set (the shuffle
outcome is a parameter) when every model fails.  Returns the questions and
the number of network requests. -/
def generateQuestionsModel (key : String) (outcomes : List (Option String))
    (shuffledFallback : List String) (difficulty : String) (count : Nat) :
    List RawQuestion × Nat :=
  if checkApiKey key = false then ([], 0)
  else
    let r := chainAttempts difficulty count outcomes
    match r.1 with
    | some qs => (qs, r.2)
    | none =>
      ((shuffledFallback.take count).map (fun s =>
        ({ question := s, difficulty := difficulty,
           timeLimit := difficultyTimeLimit difficulty } : RawQuestion)), r.2)

/-- The model loop of PerplexityAPI.testConnection: each entry tells whether
that model's hello request succeeded; count the requests issued. -/
def connAttempts : List Bool → Bool × Nat
  | [] => (false, 0)
  | ok :: rest =>
    if ok then (true, 1)
    else
      let r := connAttempts rest
      (r.1, r.2 + 1)

/-- PerplexityAPI.testConnection: no request at all on a failed credential
check. -/
def testConnectionModel (key : String) (testOutcomes : List Bool) : Bool × Nat :=
  if checkApiKey key = false then (false, 0)
  else connAttempts testOutcomes

/-! ## Session component helpers (IntervieweeTab.jsx) -/

/-- getTimeLimit (IntervieweeTab.jsx lines 758-762). -/
def getTimeLimit (index : Nat) : Nat :=
  if index < 2 then 20 else if index < 4 then 60 else 120

/-- getDifficulty (IntervieweeTab.jsx lines 765-769). -/
def getDifficulty (index : Nat) : String :=
  if index < 2 then "Easy" else if index < 4 then "Medium" else "Hard"

/-- The defaultQuestions.map of generateQuestionsBatch (lines 836-841): ids are
default-(timestamp)-(idx); a falsy (0) stored timeLimit would fall back to
getTimeLimit. -/
def defaultsMapped (now : String) : List Question :=
  defaultQuestions.enum.map (fun p =>
    { id := "default-" ++ now ++ "-" ++ toString p.1,
      question := p.2.question,
      difficulty := p.2.difficulty,
      timeLimit := if p.2.timeLimit ≠ 0 then p.2.timeLimit else getTimeLimit p.1 })

/-- The allQuestions.map of generateQuestionsBatch (lines 844-849): a falsy
(empty) difficulty falls back to getDifficulty, a falsy timeLimit to
getTimeLimit. -/
def generatedMapped (all : List RawQuestion) (now : String) : List Question :=
  all.enum.map (fun p =>
    { id := "generated-" ++ now ++ "-" ++ toString p.1,
      question := p.2.question,
      difficulty := if p.2.difficulty ≠ "" then p.2.difficulty else getDifficulty p.1,
      timeLimit := if p.2.timeLimit ≠ 0 then p.2.timeLimit else getTimeLimit p.1 })

/-- generateQuestionsBatch (IntervieweeTab.jsx lines 782-860): when the key is
available, test the connection (one request per model tried), then request
two questions per difficulty tier; any empty combined result falls back to the
defaults.  Returns the mapped questions and the total number of network
requests issued. -/
def generateQuestionsBatchRun (key : String) (testOutcomes : List Bool)
    (eo mo ho : List (Option String)) (se sm sh : List String) (now : String) :
    List Question × Nat :=
  if isApiKeyAvailable key then
    let conn := testConnectionModel key testOutcomes
    if conn.1 then
      let easy := generateQuestionsModel key eo se "easy" 2
      let medium := generateQuestionsModel key mo sm "medium" 2
      let hard := generateQuestionsModel key ho sh "hard" 2
      let allQuestions := easy.1 ++ medium.1 ++ hard.1
      let n := conn.2 + easy.2 + medium.2 + hard.2
      if allQuestions.length = 0 then (defaultsMapped now, n)
      else (generatedMapped allQuestions now, n)
    else (defaultsMapped now, conn.2)
  else (defaultsMapped now, 0)

/-- The dispatch at the end of the generation effect (lines 1086-1103): an
empty batch only raises an error, otherwise the session enters in_progress at
question 0 with the first question's time limit (falsy 0 falls back to
getTimeLimit 0). -/
def startInterview (cand : Candidate) (batch : List Question) : Candidate :=
  match batch with
  | [] => cand
  | q0 :: _ =>
    let firstQuestionTimeLimit := if q0.timeLimit ≠ 0 then q0.timeLimit else getTimeLimit 0
    { cand with
      questions := batch
      interviewStatus := "in_progress"
      currentQuestionIndex := 0
      timeLeft := (firstQuestionTimeLimit : Int)
      isPaused := false }

/-- submitAnswer (IntervieweeTab.jsx lines 862-954), success path: guard
clauses, the sentinel for an empty answer, the appended answer record, and the
advance of index/timer. -/
def submitAnswer (cand : Candidate) (answer : String) (evaluation : Evaluation)
    (now : String) : Candidate :=
  if 6 ≤ cand.currentQuestionIndex then cand
  else if cand.questions.length = 0 then cand
  else
    match cand.questions[cand.currentQuestionIndex]? with
    | none => cand
    | some currentQuestion =>
      let answerToSubmit := if answer = "" then "No answer provided (time ran out)" else answer
      let updatedAnswers := cand.answers ++
        [{ questionId := currentQuestion.id, text := answerToSubmit,
           score := some evaluation.score, feedback := some evaluation.feedback,
           timestamp := now }]
      let nextIndex := cand.currentQuestionIndex + 1
      let nextTimeLeft : Int :=
        match cand.questions[nextIndex]? with
        | some nextQuestion =>
          ((if nextQuestion.timeLimit ≠ 0 then nextQuestion.timeLimit
            else getTimeLimit nextIndex : Nat) : Int)
        | none => 0
      { cand with
        answers := updatedAnswers
        currentQuestionIndex := nextIndex
        timeLeft := nextTimeLeft
        isPaused := false }

/-- One countdown tick (IntervieweeTab.jsx lines 1198-1217): the new time and
whether the zero crossing triggers the automatic submission. -/
def timerTick (prevTime : Int) : Int × Bool :=
  let newTime := prevTime - 1
  if newTime ≤ 0 then (0, true) else (newTime, false)

/-- The out-of-range guard of the initialization effect (lines 1120-1136):
clamp the index to the last valid question, resynchronize timeLeft (falsy 0
falls back to the question's limit), dispatch only when something changed.
The answers array is not part of the dispatched update. -/
def clampIndexStep (cand : Candidate) : Candidate :=
  let safeIndex := cand.questions.length - 1
  match cand.questions[safeIndex]? with
  | none => cand
  | some q =>
    let newTimeLeft : Int := if cand.timeLeft = 0 then (q.timeLimit : Int) else cand.timeLeft
    if cand.currentQuestionIndex ≠ safeIndex ∨ cand.timeLeft ≠ newTimeLeft then
      { cand with currentQuestionIndex := safeIndex, timeLeft := newTimeLeft }
    else cand

/-! ## Evaluator fallback (perplexityAPI.js lines 434-455) -/

/-- The keyword list of the heuristic evaluation. -/
def technicalKeywords : List String :=
  ["function", "variable", "scope", "closure", "async", "promise", "component",
   "state", "props", "api", "database", "server", "client"]

/-- The heuristic fallback of evaluateAnswer, reached when every model failed:
base 3, +1 for length over 50, +1 for length over 100, plus the number of
matched keywords capped at 3, the total capped at 10, with the templated
feedback naming up to three matched keywords. -/
def evaluateAnswerFallback (answer : String) : Evaluation :=
  let answerLower := jsToLower answer
  let score1 : ℚ := 3
  let score2 : ℚ := if answer.length > 50 then score1 + 1 else score1
  let score3 : ℚ := if answer.length > 100 then score2 + 1 else score2
  let foundKeywords := technicalKeywords.filter (fun keyword => jsIncludes answerLower keyword)
  let score4 : ℚ := score3 + min (foundKeywords.length : ℚ) 3
  let score : ℚ := min 10 score4
  { score := score,
    feedback := "Basic evaluation: Answer shows " ++
      (if score ≥ 7 then "good" else if score ≥ 5 then "moderate" else "limited") ++
      " technical understanding. " ++
      (if foundKeywords.length > 0 then
        "Mentioned relevant concepts: " ++
          String.intercalate ", " (foundKeywords.take 3) ++ "."
       else "") ++
      " Consider providing more detailed explanations." }

/-! ## Aggregator (IntervieweeTab.jsx finishInterview, perplexityAPI.js
generateSummary) -/

/-- The final-score computation of finishInterview (lines 973-977): sum of the
per-question scores with missing ones as 0, divided by 6, times 10, rounded
and clamped to the 0..100 range. -/
def computeFinalScore (answers : List Answer) : ℤ :=
  let perQuestionScores := answers.map scoreOr0
  let totalOutOfTen := perQuestionScores.sum
  let averageOutOfTen := totalOutOfTen / 6
  max 0 (min 100 (jsRound (averageOutOfTen * 10)))

/-- The completion dispatch of finishInterview (lines 993-1001). -/
def finishInterview (cand : Candidate) (summary : String) (now : String) : Candidate :=
  { cand with
    interviewStatus := "completed"
    score := some ((computeFinalScore cand.answers : ℤ) : ℚ)
    summary := some summary
    completedAt := some now }

/-- The average of the stored answer scores (generateSummary lines 539-541):
sum with missing scores as 0, divided by the number of answers, 0 when there
are none. -/
def avgAnswerScore (answers : List Answer) : ℚ :=
  if answers.length = 0 then 0
  else (answers.map scoreOr0).sum / (answers.length : ℚ)

/-- Number.prototype.toFixed for one decimal, for the nonnegative averages
arising here; the exact digits never matter to the properties proved. -/
def jsToFixed1 (q : ℚ) : String :=
  let scaled := jsRound (q * 10)
  toString (scaled / 10) ++ "." ++ toString (scaled % 10)

/-- The performance-overview ternary of the default summary (line 547). -/
def performanceOverview (avgScore : ℚ) : String :=
  if avgScore ≥ 7 then "Strong performance with good technical understanding."
  else if avgScore ≥ 5 then "Moderate performance with room for improvement."
  else "Below average performance, significant gaps in technical knowledge."

/-- The recommendation ternary of the default summary (line 551). -/
def recommendationText (avgScore : ℚ) : String :=
  if avgScore ≥ 7 then "Consider for next round"
  else if avgScore ≥ 5 then "Requires further evaluation"
  else "Not recommended at this time"

/-- The defaultSummary template literal of generateSummary (lines 543-553);
a falsy (empty) candidate name reads Candidate. -/
def fallbackSummary (name : String) (answers : List Answer) : String :=
  let avgScore := avgAnswerScore answers
  ("Interview Summary for " ++ (if name = "" then "Candidate" else name) ++
    "\n\nTechnical Skills Assessment: The candidate completed " ++
    toString answers.length ++
    " out of 6 interview questions with an average score of " ++
    jsToFixed1 avgScore ++ "/10.\n\nPerformance Overview: ") ++
  performanceOverview avgScore ++
  ("\n\nAreas for Improvement: Based on the interview responses, the candidate would benefit from additional practice and study in the technical areas covered.\n\nRecommendation: ") ++
  recommendationText avgScore ++
  (" based on current technical assessment.\n\nNote: This is an automated summary. Manual review recommended for final hiring decisions.")

/-- The model loop of generateSummary (lines 472-533): the first model whose
request succeeds with trimmed content longer than 50 chars wins. -/
def summaryFirstAccepted : List (Option String) → Option String
  | [] => none
  | outcome :: rest =>
    match outcome with
    | some raw =>
      let content := jsTrim raw
      if content.length > 50 then some content else summaryFirstAccepted rest
    | none => summaryFirstAccepted rest

/-- PerplexityAPI.generateSummary: the fixed message on a missing credential,
the first accepted model response otherwise, and the deterministic template on
chain exhaustion. -/
def generateSummaryModel (key : String) (outcomes : List (Option String))
    (cand : Candidate) : String :=
  if checkApiKey key = false then "Using default summary due to missing API key."
  else
    match summaryFirstAccepted outcomes with
    | some content => content
    | none => fallbackSummary cand.name cand.answers

/-- finishInterview with its summary obtained from generateSummary. -/
def finishInterviewRun (key : String) (outcomes : List (Option String))
    (cand : Candidate) (now : String) : Candidate :=
  finishInterview cand (generateSummaryModel key outcomes cand) now

/-! ## The initialization effect as a dispatcher (IntervieweeTab.jsx
lines 1036-1169) -/

/-- JS truthiness of the stored score: null/undefined and 0 are falsy. -/
def scoreTruthy (score : Option ℚ) : Bool :=
  match score with
  | none => false
  | some q => if q = 0 then false else true

/-- What the effect decides to do for a candidate state. -/
inductive EffectAction where
  | idle
  | generate
  | clamp
  | finish
deriving DecidableEq

/-- The branch structure of the initialization effect: completed sessions
return immediately; below index 6 either generate questions (guarded by the
in-flight flag), clamp an out-of-range index, or just resync the local timer;
at index 6 with questions and no truthy score, finish (guarded). -/
def effectAction (cand : Candidate) (guardGen guardFin : Bool) : EffectAction :=
  if cand.interviewStatus = "completed" then EffectAction.idle
  else if cand.currentQuestionIndex < 6 then
    if cand.questions.length = 0 then
      (if guardGen then EffectAction.idle else EffectAction.generate)
    else if cand.questions.length ≤ cand.currentQuestionIndex then EffectAction.clamp
    else EffectAction.idle
  else if 0 < cand.questions.length ∧ scoreTruthy cand.score = false then
    (if guardFin then EffectAction.idle else EffectAction.finish)
  else EffectAction.idle

/-- Running the effect: apply the decided action to the candidate. -/
def effectRun (cand : Candidate) (guardGen guardFin : Bool) (key : String)
    (testOutcomes : List Bool) (eo mo ho : List (Option String))
    (se sm sh : List String) (sumOutcomes : List (Option String)) (now : String) :
    Candidate :=
  match effectAction cand guardGen guardFin with
  | EffectAction.idle => cand
  | EffectAction.generate =>
      startInterview cand (generateQuestionsBatchRun key testOutcomes eo mo ho se sm sh now).1
  | EffectAction.clamp => clampIndexStep cand
  | EffectAction.finish => finishInterviewRun key sumOutcomes cand now

/-! ## The generation in-flight guard (hasGeneratedQuestions ref,
lines 1058-1117) -/

/-- The observable state of the guard: the boolean latch, how many batch
requests were ever started, and how many are outstanding. -/
structure GenGuardState where
  flag : Bool
  issued : Nat
  outstanding : Nat
deriving DecidableEq

/-- The fresh state: latch clear, nothing issued. -/
def genGuardInit : GenGuardState :=
  { flag := false, issued := 0, outstanding := 0 }

/-- One trigger of the generation effect: a set latch makes it a no-op,
otherwise the latch is set and one request starts (lines 1061-1074). -/
def triggerGeneration (s : GenGuardState) : GenGuardState :=
  if s.flag then s
  else { flag := true, issued := s.issued + 1, outstanding := s.outstanding + 1 }

/-- Resolution of the request: both the then-branch and the catch-branch clear
the latch (lines 1083 and 1113), so the parameter recording success is
unused. -/
def resolveGeneration (s : GenGuardState) (_success : Bool) : GenGuardState :=
  { flag := false, issued := s.issued, outstanding := s.outstanding - 1 }

/-! ## The Redux candidates slice (candidatesSlice.js) -/

/-- The updateCandidate payload: the id plus any subset of the session fields
(none = the field is absent from the action, i.e. undefined). -/
structure CandidateUpdate where
  id : String
  name : Option String
  interviewStatus : Option String
  questions : Option (List Question)
  answers : Option (List Answer)
  currentQuestionIndex : Option Nat
  timeLeft : Option Int
  isPaused : Option Bool
  score : Option (Option ℚ)
  summary : Option (Option String)
  completedAt : Option (Option String)
deriving DecidableEq

/-- The merge written in the updateCandidate reducer: spread of current then
incoming, with each listed field kept from current unless the incoming action
explicitly provides it. -/
def mergeCandidate (current : Candidate) (incoming : CandidateUpdate) : Candidate :=
  { id := incoming.id,
    name := incoming.name.getD current.name,
    interviewStatus := incoming.interviewStatus.getD current.interviewStatus,
    questions := incoming.questions.getD current.questions,
    answers := incoming.answers.getD current.answers,
    currentQuestionIndex := incoming.currentQuestionIndex.getD current.currentQuestionIndex,
    timeLeft := incoming.timeLeft.getD current.timeLeft,
    isPaused := incoming.isPaused.getD current.isPaused,
    score := incoming.score.getD current.score,
    summary := incoming.summary.getD current.summary,
    completedAt := incoming.completedAt.getD current.completedAt }

/-- The whole slice state. -/
structure StoreState where
  candidates : List Candidate
  currentCandidateId : Option String
  activeTab : String
  viewMode : String
deriving DecidableEq

/-- findIndex on id followed by assignment at that index: replace the first
candidate whose id matches, leave the list as is when none does. -/
def updateCandidatesList (payload : CandidateUpdate) : List Candidate → List Candidate
  | [] => []
  | c :: rest =>
    if c.id = payload.id then mergeCandidate c payload :: rest
    else c :: updateCandidatesList payload rest

/-- The updateCandidate reducer: an unmatched id returns with no change, a
matched one rewrites only that entry of the candidates array. -/
def updateCandidateReducer (st : StoreState) (payload : CandidateUpdate) : StoreState :=
  { st with candidates := updateCandidatesList payload st.candidates }

/-! ## Concrete inputs used by the scenario conjuncts and witnesses -/

/-- An answer carrying only a score, for the aggregation scenarios. -/
def scoredAnswer (qid : String) (s : ℚ) : Answer :=
  { questionId := qid, text := "answer text", score := some s,
    feedback := some "feedback", timestamp := "2024-01-01" }

/-- The six answers of the spec scenario with scores 8,6,7,5,9,4. -/
def scenarioAnswers : List Answer :=
  [scoredAnswer "q0" 8, scoredAnswer "q1" 6, scoredAnswer "q2" 7,
   scoredAnswer "q3" 5, scoredAnswer "q4" 9, scoredAnswer "q5" 4]

/-- A bank-derived question list with ids, for concrete sessions. -/
def sampleQuestions : List Question :=
  defaultsMapped "1700000000000"

/-- The scenario session: all six questions answered, awaiting aggregation. -/
def scenarioCandidate : Candidate :=
  { id := "cand-1", name := "Alice", interviewStatus := "in_progress",
    questions := sampleQuestions, answers := scenarioAnswers,
    currentQuestionIndex := 6, timeLeft := 0, isPaused := false,
    score := none, summary := none, completedAt := none }

/-- A 120-character answer whose only technical keywords are api and
database. -/
def apiDatabaseAnswer : String :=
  String.mk (List.replicate 108 'z') ++ "api database"

/-- A syntactically valid Perplexity credential. -/
def validKey : String :=
  "pplx-aaaaaaaaaaaaaaaaaaaaaaaaaaaaaaaa"

/-- A provider response for the easy tier that parses to a single question
although two were requested. -/
def shortEasyContent : String :=
  "1. Explain closures in JavaScript with examples"

/-- A provider response parsing to exactly two questions. -/
def twoQuestionContent : String :=
  "1. How do you handle errors in asynchronous code today\n2. Explain the concept of managing shared data stores"

/-- A session resumed with a questions array shorter than its index: three
questions, three answers, index three. -/
def shortBatchCandidate : Candidate :=
  { id := "cand-2", name := "Bob", interviewStatus := "in_progress",
    questions := [{ id := "g0", question := "q one text", difficulty := "easy", timeLimit := 20 },
                  { id := "g1", question := "q two text", difficulty := "medium", timeLimit := 60 },
                  { id := "g2", question := "q three text", difficulty := "hard", timeLimit := 120 }],
    answers := [scoredAnswer "g0" 5, scoredAnswer "g1" 6, scoredAnswer "g2" 7],
    currentQuestionIndex := 3, timeLeft := 15, isPaused := false,
    score := none, summary := none, completedAt := none }

/-- A completed session, for the idempotence witness. -/
def completedCandidate : Candidate :=
  { id := "cand-3", name := "Cara", interviewStatus := "completed",
    questions := sampleQuestions, answers := scenarioAnswers,
    currentQuestionIndex := 6, timeLeft := 0, isPaused := false,
    score := some 65, summary := some "done", completedAt := some "2024-01-02" }

/-- A fresh in-progress session at question 0 with no answers yet. -/
def inProgressCandidate : Candidate :=
  { id := "cand-5", name := "Eve", interviewStatus := "in_progress",
    questions := sampleQuestions, answers := [],
    currentQuestionIndex := 0, timeLeft := 20, isPaused := false,
    score := none, summary := none, completedAt := none }

/-- The first sample question (the first bank question with its mapped id). -/
def sampleQ0 : Question :=
  { id := "default-1700000000000-0",
    question := "What is the difference between let, const, and var in JavaScript?",
    difficulty := "Easy", timeLimit := 20 }

/-- A session whose single scored answer puts the average in the moderate
band. -/
def moderateCandidate : Candidate :=
  { id := "cand-4", name := "Dan", interviewStatus := "in_progress",
    questions := sampleQuestions, answers := [scoredAnswer "q0" 6],
    currentQuestionIndex := 6, timeLeft := 0, isPaused := false,
    score := none, summary := none, completedAt := none }

/-- A bare stored candidate with id a. -/
def candA : Candidate :=
  { id := "a", name := "Ann", interviewStatus := "not_started",
    questions := [], answers := [], currentQuestionIndex := 0, timeLeft := 0,
    isPaused := false, score := none, summary := none, completedAt := none }

/-- A bare stored candidate with id b. -/
def candB : Candidate :=
  { id := "b", name := "Ben", interviewStatus := "in_progress",
    questions := [], answers := [], currentQuestionIndex := 2, timeLeft := 30,
    isPaused := false, score := none, summary := none, completedAt := none }

/-- A store with the two candidates. -/
def storeA : StoreState :=
  { candidates := [candA, candB], currentCandidateId := some "a",
    activeTab := "interviewee", viewMode := "tabs" }

/-- An update payload whose id matches no stored candidate. -/
def payloadZ : CandidateUpdate :=
  { id := "zzz", name := none, interviewStatus := none, questions := none,
    answers := none, currentQuestionIndex := none, timeLeft := none,
    isPaused := none, score := none, summary := none, completedAt := none }

/-- An update payload targeting candidate b. -/
def payloadB : CandidateUpdate :=
  { id := "b", name := none, interviewStatus := some "completed", questions := none,
    answers := none, currentQuestionIndex := none, timeLeft := none,
    isPaused := none, score := some (some 70), summary := some (some "good"),
    completedAt := some (some "2024-01-03") }

/-! ## Helper lemmas -/

theorem strDataAppend (s t : String) : (s ++ t).data = s.data ++ t.data := by
  cases s
  cases t
  rfl

theorem charsStartWith_same (l t : List Char) : charsStartWith l (l ++ t) = true := by
  induction l with
  | nil => rfl
  | cons a as ih => simp [charsStartWith, ih]

theorem charsContain_of_start (n h : List Char) (hs : charsStartWith n h = true) :
    charsContain n h = true := by
  cases h with
  | nil =>
    cases n with
    | nil => rfl
    | cons a as => simp [charsStartWith] at hs
  | cons c rest => simp [charsContain, hs]

theorem charsContain_mid (n : List Char) :
    ∀ pre post : List Char, charsContain n (pre ++ (n ++ post)) = true := by
  intro pre
  induction pre with
  | nil =>
    intro post
    exact charsContain_of_start n (n ++ post) (charsStartWith_same n post)
  | cons c cs ih =>
    intro post
    simp only [List.cons_append, charsContain]
    rw [Bool.or_eq_true]
    right
    exact ih post

theorem clampTen_of_nonneg (x : ℚ) (hx : 0 ≤ x) : max 0 (min 10 x) = min 10 x :=
  max_eq_right (le_min (by norm_num) hx)

theorem charsContain_append_right (n : List Char) :
    ∀ x y : List Char, charsContain n y = true → charsContain n (x ++ y) = true := by
  intro x
  induction x with
  | nil => intro y hy; exact hy
  | cons c cs ih =>
    intro y hy
    simp only [List.cons_append, charsContain]
    rw [Bool.or_eq_true]
    right
    exact ih y hy

theorem str_append_ne_empty (s t : String) (h : s ≠ "") : s ++ t ≠ "" := by
  intro hc
  apply h
  have hd : s.data ++ t.data = ([] : List Char) := by
    rw [← strDataAppend, hc]
  cases s with
  | mk data =>
    have h1 := (List.append_eq_nil.mp hd).1
    exact congrArg String.mk h1

theorem summaryFirstAccepted_long :
    ∀ outcomes : List (Option String), ∀ c : String,
      summaryFirstAccepted outcomes = some c → 50 < c.length := by
  intro outcomes
  induction outcomes with
  | nil => intro c hc; cases hc
  | cons o rest ih =>
    intro c hc
    cases o with
    | none => exact ih c hc
    | some raw =>
      simp only [summaryFirstAccepted] at hc
      by_cases hl : (jsTrim raw).length > 50
      · rw [if_pos hl] at hc
        cases hc
        exact hl
      · rw [if_neg hl] at hc
        exact ih c hc

theorem fallbackSummary_ne_empty (name : String) (answers : List Answer) :
    fallbackSummary name answers ≠ "" := by
  simp only [fallbackSummary]
  apply str_append_ne_empty
  apply str_append_ne_empty
  apply str_append_ne_empty
  apply str_append_ne_empty
  apply str_append_ne_empty
  apply str_append_ne_empty
  apply str_append_ne_empty
  apply str_append_ne_empty
  apply str_append_ne_empty
  apply str_append_ne_empty
  decide

theorem fallback_contains_overview (name : String) (answers : List Answer) :
    jsIncludes (fallbackSummary name answers)
      (performanceOverview (avgAnswerScore answers)) = true := by
  simp only [jsIncludes, fallbackSummary, strDataAppend, List.append_assoc]
  apply charsContain_append_right
  apply charsContain_append_right
  apply charsContain_append_right
  apply charsContain_append_right
  apply charsContain_append_right
  apply charsContain_append_right
  apply charsContain_append_right
  exact charsContain_of_start _ _ (charsStartWith_same _ _)

theorem updateCandidatesList_no_match (payload : CandidateUpdate) :
    ∀ l : List Candidate, (∀ c ∈ l, c.id ≠ payload.id) →
      updateCandidatesList payload l = l := by
  intro l
  induction l with
  | nil => intro _; rfl
  | cons c rest ih =>
    intro hall
    have hc : c.id ≠ payload.id := hall c (List.mem_cons_self c rest)
    simp only [updateCandidatesList, if_neg hc]
    rw [ih (fun x hx => hall x (List.mem_cons_of_mem c hx))]

theorem updateCandidatesList_match (payload : CandidateUpdate) (cur : Candidate)
    (post : List Candidate) (hcur : cur.id = payload.id) :
    ∀ pre : List Candidate, (∀ c ∈ pre, c.id ≠ payload.id) →
      updateCandidatesList payload (pre ++ cur :: post) =
        pre ++ mergeCandidate cur payload :: post := by
  intro pre
  induction pre with
  | nil =>
    intro _
    simp only [List.nil_append, updateCandidatesList, if_pos hcur]
  | cons c rest ih =>
    intro hall
    have hc : c.id ≠ payload.id := hall c (List.mem_cons_self c rest)
    simp only [List.cons_append, updateCandidatesList, if_neg hc]
    exact congrArg (List.cons c) (ih (fun x hx => hall x (List.mem_cons_of_mem c hx)))

/-! ## Claim theorems -/

/-- C1: for a session with six answers whose scores are s1..s6 (missing or
null treated as 0), finishInterview sets the final score to
round(10 x (s1+...+s6) / 6) clamped to the 0..100 range; for the scenario
scores 8,6,7,5,9,4 the final score is 65. -/
theorem final_score_matches_spec (cand : Candidate) (summary now : String)
    (h : cand.answers.length = 6) :
    (finishInterview cand summary now).score =
      some ((max 0 (min 100 (jsRound (10 * (cand.answers.map scoreOr0).sum / 6))) : ℤ) : ℚ)
    ∧ (finishInterview scenarioCandidate "s" "t").score = some 65 := by
  constructor
  · have harg : (cand.answers.map scoreOr0).sum / 6 * 10 =
        10 * (cand.answers.map scoreOr0).sum / 6 := by ring
    simp only [finishInterview, computeFinalScore]
    rw [harg]
  · norm_num [finishInterview, computeFinalScore, scenarioCandidate, scenarioAnswers,
      scoredAnswer, scoreOr0, jsRound, min_def, max_def]

/-- C1 witness: the theorem applied to the concrete scenario session. -/
theorem final_score_matches_spec_witness :
    scenarioCandidate.answers.length = 6 ∧
    (finishInterview scenarioCandidate "s" "t").score =
      some ((max 0 (min 100 (jsRound (10 * (scenarioCandidate.answers.map scoreOr0).sum / 6))) : ℤ) : ℚ) :=
  ⟨by decide, (final_score_matches_spec scenarioCandidate "s" "t" (by decide)).1⟩

/-- C2: when every provider fails, the heuristic evaluation scores
3 + (length over 50) + (length over 100) + (matched distinct keywords capped
at 3), clamped to the 0..10 range; a 120-character answer matching exactly
api and database scores 7 and its feedback names the two keywords. -/
theorem heuristic_eval_matches_spec :
    (∀ answer : String,
      (evaluateAnswerFallback answer).score =
        max 0 (min 10 ((3 : ℚ) +
          (if answer.length > 50 then 1 else 0) +
          (if answer.length > 100 then 1 else 0) +
          min ((technicalKeywords.filter
            (fun keyword => jsIncludes (jsToLower answer) keyword)).length : ℚ) 3)))
    ∧ (evaluateAnswerFallback apiDatabaseAnswer).score = 7
    ∧ (evaluateAnswerFallback apiDatabaseAnswer).feedback =
        "Basic evaluation: Answer shows good technical understanding. Mentioned relevant concepts: api, database. Consider providing more detailed explanations." := by
  have hkw : technicalKeywords.filter
      (fun keyword => jsIncludes (jsToLower apiDatabaseAnswer) keyword) = ["api", "database"] := by
    decide
  have h50 : apiDatabaseAnswer.length = 120 := by decide
  have hrec : evaluateAnswerFallback apiDatabaseAnswer =
      { score := 7,
        feedback := "Basic evaluation: Answer shows good technical understanding. Mentioned relevant concepts: api, database. Consider providing more detailed explanations." } := by
    simp only [evaluateAnswerFallback, hkw, h50]
    norm_num [min_def]
    rfl
  refine ⟨?_, by rw [hrec], by rw [hrec]⟩
  intro answer
  have hcnt : (0:ℚ) ≤ min ((technicalKeywords.filter
      (fun keyword => jsIncludes (jsToLower answer) keyword)).length : ℚ) 3 :=
    le_min (Nat.cast_nonneg _) (by norm_num)
  simp only [evaluateAnswerFallback]
  split_ifs with h1 h2 <;>
    rw [clampTen_of_nonneg _ (by linarith [hcnt])] <;>
    · congr 1
      ring

/-- C3 counterexample: with a valid credential and a working connection, an
easy-tier response parsing to a single question is accepted although two were
requested, and the combined session batch then has 5 questions, neither 0
nor 6, with no chain failure signalled. -/
theorem short_batch_accepted_counterexample :
    acceptModelBatch shortEasyContent "easy" 2 =
      some [{ question := "Explain closures in JavaScript with examples",
              difficulty := "easy", timeLimit := 20 }]
    ∧ (generateQuestionsBatchRun validKey [true] [some shortEasyContent]
        [some twoQuestionContent] [some twoQuestionContent] [] [] [] "t").1.length = 5
    ∧ ¬((generateQuestionsBatchRun validKey [true] [some shortEasyContent]
          [some twoQuestionContent] [some twoQuestionContent] [] [] [] "t").1.length = 0 ∨
        (generateQuestionsBatchRun validKey [true] [some shortEasyContent]
          [some twoQuestionContent] [some twoQuestionContent] [] [] [] "t").1.length = 6) := by
  exact ⟨by decide, by decide, by decide⟩

/-- C3 amended: a provider batch is accepted whenever at least one question
was parsed, truncated to the requested count, so an accepted batch can be
shorter than requested; only the no-provider default path guarantees exactly
6 questions, with difficulties Easy,Easy,Medium,Medium,Hard,Hard. -/
theorem batch_accept_and_default_shape :
    (∀ (content difficulty : String) (count : Nat) (qs : List RawQuestion),
      acceptModelBatch content difficulty count = some qs →
        0 < (parsePerplexityQuestions content difficulty count).length ∧
        qs.length = min count (parsePerplexityQuestions content difficulty count).length)
    ∧ (∀ (testOutcomes : List Bool) (eo mo ho : List (Option String))
        (se sm sh : List String) (now : String),
        (generateQuestionsBatchRun "" testOutcomes eo mo ho se sm sh now).1.length = 6 ∧
        (generateQuestionsBatchRun "" testOutcomes eo mo ho se sm sh now).1.map
          (fun q => q.difficulty) = ["Easy", "Easy", "Medium", "Medium", "Hard", "Hard"]) := by
  constructor
  · intro content difficulty count qs hacc
    simp only [acceptModelBatch] at hacc
    by_cases hl : (parsePerplexityQuestions content difficulty count).length > 0
    · refine ⟨hl, ?_⟩
      rw [if_pos hl] at hacc
      have hq := Option.some.inj hacc
      rw [← hq]
      exact List.length_take _ _
    · rw [if_neg hl] at hacc
      cases hacc
  · intro testOutcomes eo mo ho se sm sh now
    exact ⟨rfl, rfl⟩

/-- C3 amended witness: the accept condition applied to the short easy
batch. -/
theorem batch_accept_and_default_shape_witness :
    0 < (parsePerplexityQuestions shortEasyContent "easy" 2).length ∧
    ([{ question := "Explain closures in JavaScript with examples",
        difficulty := "easy", timeLimit := 20 }] : List RawQuestion).length =
      min 2 (parsePerplexityQuestions shortEasyContent "easy" 2).length :=
  batch_accept_and_default_shape.1 shortEasyContent "easy" 2 _ (by decide)

/-- C4: with no credential configured, question generation issues zero
network requests, returns the six question-bank items unchanged, and the
session enters in_progress at question 0 with 20 seconds on the clock. -/
theorem no_credential_uses_defaults (testOutcomes : List Bool)
    (eo mo ho : List (Option String)) (se sm sh : List String) (now : String)
    (cand : Candidate) :
    (testConnectionModel "" testOutcomes).2 = 0
    ∧ (generateQuestionsBatchRun "" testOutcomes eo mo ho se sm sh now).2 = 0
    ∧ (generateQuestionsBatchRun "" testOutcomes eo mo ho se sm sh now).1.map
        (fun q => (q.question, q.difficulty, q.timeLimit)) =
      defaultQuestions.map (fun q => (q.question, q.difficulty, q.timeLimit))
    ∧ (startInterview cand
        (generateQuestionsBatchRun "" testOutcomes eo mo ho se sm sh now).1).interviewStatus =
      "in_progress"
    ∧ (startInterview cand
        (generateQuestionsBatchRun "" testOutcomes eo mo ho se sm sh now).1).currentQuestionIndex = 0
    ∧ (startInterview cand
        (generateQuestionsBatchRun "" testOutcomes eo mo ho se sm sh now).1).timeLeft = 20
    ∧ (startInterview cand
        (generateQuestionsBatchRun "" testOutcomes eo mo ho se sm sh now).1).questions =
      (generateQuestionsBatchRun "" testOutcomes eo mo ho se sm sh now).1 :=
  ⟨rfl, rfl, rfl, rfl, rfl, rfl, rfl⟩

/-- C5: when the countdown reaches 0 with an empty answer text, the automatic
submission appends the sentinel answer and advances the index by one. -/
theorem timeout_auto_submit (cand : Candidate) (evaluation : Evaluation)
    (now : String) (q : Question)
    (h1 : cand.currentQuestionIndex < 6)
    (h2 : cand.questions[cand.currentQuestionIndex]? = some q) :
    timerTick 1 = (0, true)
    ∧ (submitAnswer cand "" evaluation now).answers.map (fun a => a.text) =
        cand.answers.map (fun a => a.text) ++ ["No answer provided (time ran out)"]
    ∧ (submitAnswer cand "" evaluation now).currentQuestionIndex =
        cand.currentQuestionIndex + 1 := by
  have hne : cand.questions.length ≠ 0 := by
    intro h0
    rw [List.length_eq_zero] at h0
    rw [h0] at h2
    simp at h2
  have hlt : ¬ (6 ≤ cand.currentQuestionIndex) := by omega
  refine ⟨rfl, ?_, ?_⟩ <;> simp [submitAnswer, hlt, hne, h2]

/-- C5 witness: the automatic submission on a fresh session at question 0. -/
theorem timeout_auto_submit_witness :
    timerTick 1 = (0, true)
    ∧ (submitAnswer inProgressCandidate "" { score := 5, feedback := "f" } "t").answers.map
        (fun a => a.text) =
      inProgressCandidate.answers.map (fun a => a.text) ++ ["No answer provided (time ran out)"]
    ∧ (submitAnswer inProgressCandidate "" { score := 5, feedback := "f" } "t").currentQuestionIndex =
      inProgressCandidate.currentQuestionIndex + 1 :=
  timeout_auto_submit inProgressCandidate { score := 5, feedback := "f" } "t" sampleQ0
    (by decide) (by decide)

/-- C6 counterexample: the out-of-range clamp fires on a session that
satisfies answers.length = currentQuestionIndex, and lowers the index without
touching the answers, so the equality is broken by an operation that is not
the append. -/
theorem clamp_breaks_answer_index_equality :
    shortBatchCandidate.answers.length = shortBatchCandidate.currentQuestionIndex
    ∧ effectAction shortBatchCandidate false false = EffectAction.clamp
    ∧ (clampIndexStep shortBatchCandidate).answers = shortBatchCandidate.answers
    ∧ (clampIndexStep shortBatchCandidate).currentQuestionIndex = 2
    ∧ (clampIndexStep shortBatchCandidate).answers.length ≠
        (clampIndexStep shortBatchCandidate).currentQuestionIndex := by
  exact ⟨rfl, rfl, rfl, rfl, by decide⟩

/-- C6 amended: answer submission appends exactly one answer and increments
the index by one in a single update; the out-of-range clamp is the one other
operation that changes the index (to questions.length - 1) while leaving the
answers unchanged. -/
theorem submit_atomic_and_clamp_exception :
    (∀ (cand : Candidate) (answer : String) (evaluation : Evaluation)
      (now : String) (q : Question),
      cand.currentQuestionIndex < 6 →
      cand.questions[cand.currentQuestionIndex]? = some q →
      (submitAnswer cand answer evaluation now).answers.length = cand.answers.length + 1 ∧
      (submitAnswer cand answer evaluation now).currentQuestionIndex =
        cand.currentQuestionIndex + 1)
    ∧ (∀ cand : Candidate,
      cand.questions.length ≠ 0 →
      cand.questions.length ≤ cand.currentQuestionIndex →
      (clampIndexStep cand).answers = cand.answers ∧
      (clampIndexStep cand).currentQuestionIndex = cand.questions.length - 1) := by
  constructor
  · intro cand answer evaluation now q h1 h2
    have hne : cand.questions.length ≠ 0 := by
      intro h0
      rw [List.length_eq_zero] at h0
      rw [h0] at h2
      simp at h2
    have hlt : ¬ (6 ≤ cand.currentQuestionIndex) := by omega
    constructor <;> simp [submitAnswer, hlt, hne, h2]
  · intro cand hne hle
    have hlt : cand.questions.length - 1 < cand.questions.length := by omega
    have hq := List.getElem?_eq_getElem hlt
    have hneidx : cand.currentQuestionIndex ≠ cand.questions.length - 1 := by omega
    constructor <;> simp [clampIndexStep, hq, hneidx]

/-- C6 amended witness: the two parts applied to a fresh session and to the
short-batch session. -/
theorem submit_atomic_and_clamp_exception_witness :
    ((submitAnswer inProgressCandidate "hello" { score := 5, feedback := "f" } "t").answers.length =
        inProgressCandidate.answers.length + 1 ∧
      (submitAnswer inProgressCandidate "hello" { score := 5, feedback := "f" } "t").currentQuestionIndex =
        inProgressCandidate.currentQuestionIndex + 1)
    ∧ ((clampIndexStep shortBatchCandidate).answers = shortBatchCandidate.answers ∧
      (clampIndexStep shortBatchCandidate).currentQuestionIndex =
        shortBatchCandidate.questions.length - 1) :=
  ⟨submit_atomic_and_clamp_exception.1 inProgressCandidate "hello"
      { score := 5, feedback := "f" } "t" sampleQ0 (by decide) (by decide),
    submit_atomic_and_clamp_exception.2 shortBatchCandidate (by decide) (by decide)⟩

/-- C7: the completed session's summary is always non-empty; when the chain
is exhausted (credential valid, no model accepted) it is the deterministic
template, whose performance-overview band is strong at average at least 7,
moderate at average at least 5, otherwise below average. -/
theorem completion_summary_nonempty_and_template (key : String)
    (outcomes : List (Option String)) (cand : Candidate) (now : String) :
    (finishInterviewRun key outcomes cand now).summary =
        some (generateSummaryModel key outcomes cand)
    ∧ generateSummaryModel key outcomes cand ≠ ""
    ∧ (checkApiKey key = true → summaryFirstAccepted outcomes = none →
        generateSummaryModel key outcomes cand = fallbackSummary cand.name cand.answers)
    ∧ (avgAnswerScore cand.answers ≥ 7 →
        jsIncludes (fallbackSummary cand.name cand.answers)
          "Strong performance with good technical understanding." = true)
    ∧ (¬ avgAnswerScore cand.answers ≥ 7 → avgAnswerScore cand.answers ≥ 5 →
        jsIncludes (fallbackSummary cand.name cand.answers)
          "Moderate performance with room for improvement." = true)
    ∧ (¬ avgAnswerScore cand.answers ≥ 7 → ¬ avgAnswerScore cand.answers ≥ 5 →
        jsIncludes (fallbackSummary cand.name cand.answers)
          "Below average performance, significant gaps in technical knowledge." = true) := by
  refine ⟨rfl, ?_, ?_, ?_, ?_, ?_⟩
  · simp only [generateSummaryModel]
    by_cases hk : checkApiKey key = false
    · rw [if_pos hk]
      decide
    · rw [if_neg hk]
      cases hs : summaryFirstAccepted outcomes with
      | none => exact fallbackSummary_ne_empty cand.name cand.answers
      | some c =>
        have hlen := summaryFirstAccepted_long outcomes c hs
        intro hc
        have hc2 : c = "" := hc
        rw [hc2] at hlen
        simp at hlen
  · intro hk hn
    simp [generateSummaryModel, hk, hn]
  · intro h7
    have hpo : performanceOverview (avgAnswerScore cand.answers) =
        "Strong performance with good technical understanding." := by
      simp only [performanceOverview, if_pos h7]
    have hcont := fallback_contains_overview cand.name cand.answers
    rw [hpo] at hcont
    exact hcont
  · intro h7 h5
    have hpo : performanceOverview (avgAnswerScore cand.answers) =
        "Moderate performance with room for improvement." := by
      simp only [performanceOverview, if_neg h7, if_pos h5]
    have hcont := fallback_contains_overview cand.name cand.answers
    rw [hpo] at hcont
    exact hcont
  · intro h7 h5
    have hpo : performanceOverview (avgAnswerScore cand.answers) =
        "Below average performance, significant gaps in technical knowledge." := by
      simp only [performanceOverview, if_neg h7, if_neg h5]
    have hcont := fallback_contains_overview cand.name cand.answers
    rw [hpo] at hcont
    exact hcont

/-- C7 witness: chain exhaustion on the moderate-average session produces the
template with the moderate band. -/
theorem completion_summary_nonempty_and_template_witness :
    generateSummaryModel validKey [none] moderateCandidate =
      fallbackSummary moderateCandidate.name moderateCandidate.answers
    ∧ jsIncludes (fallbackSummary moderateCandidate.name moderateCandidate.answers)
        "Moderate performance with room for improvement." = true := by
  have h := completion_summary_nonempty_and_template validKey [none] moderateCandidate "t"
  have h7 : ¬ avgAnswerScore moderateCandidate.answers ≥ 7 := by
    norm_num [avgAnswerScore, moderateCandidate, scoredAnswer, scoreOr0]
  have h5 : avgAnswerScore moderateCandidate.answers ≥ 5 := by
    norm_num [avgAnswerScore, moderateCandidate, scoredAnswer, scoreOr0]
  exact ⟨h.2.2.1 (by decide) rfl, h.2.2.2.2.1 h7 h5⟩

/-- C8: however many times generation is triggered on a fresh session before
the request resolves, exactly one request is issued; the guard latch clears on
resolution (success or failure) and a later trigger issues a second
request. -/
theorem generation_guard_single_flight :
    (∀ n : ℕ, 1 ≤ n →
      (triggerGeneration^[n] genGuardInit).issued = 1 ∧
      (triggerGeneration^[n] genGuardInit).outstanding = 1 ∧
      (triggerGeneration^[n] genGuardInit).flag = true)
    ∧ (∀ (s : GenGuardState) (success : Bool), (resolveGeneration s success).flag = false)
    ∧ (∀ (n : ℕ) (success : Bool), 1 ≤ n →
      (triggerGeneration (resolveGeneration (triggerGeneration^[n] genGuardInit)
        success)).issued = 2) := by
  have hstep : ∀ n : ℕ, 1 ≤ n → triggerGeneration^[n] genGuardInit =
      { flag := true, issued := 1, outstanding := 1 } := by
    intro n hn
    cases n with
    | zero => omega
    | succ m =>
      rw [Function.iterate_succ_apply]
      exact Function.iterate_fixed rfl m
  refine ⟨?_, ?_, ?_⟩
  · intro n hn
    rw [hstep n hn]
    exact ⟨rfl, rfl, rfl⟩
  · intro s success
    rfl
  · intro n success hn
    rw [hstep n hn]
    rfl

/-- C8 witness: two triggers, one resolution, one retry. -/
theorem generation_guard_single_flight_witness :
    (triggerGeneration^[2] genGuardInit).issued = 1
    ∧ (triggerGeneration (resolveGeneration (triggerGeneration^[2] genGuardInit)
        true)).issued = 2 :=
  ⟨(generation_guard_single_flight.1 2 (by norm_num)).1,
   generation_guard_single_flight.2.2 2 true (by norm_num)⟩

/-- C9: the effect is a no-op on a session whose status is already completed,
so a second completion pass changes neither the score nor the summary. -/
theorem finalize_idempotent_on_completed (cand : Candidate) (guardGen guardFin : Bool)
    (key : String) (testOutcomes : List Bool) (eo mo ho : List (Option String))
    (se sm sh : List String) (sumOutcomes : List (Option String)) (now : String)
    (h : cand.interviewStatus = "completed") :
    effectRun cand guardGen guardFin key testOutcomes eo mo ho se sm sh sumOutcomes now = cand
    ∧ (effectRun cand guardGen guardFin key testOutcomes eo mo ho se sm sh
        sumOutcomes now).score = cand.score
    ∧ (effectRun cand guardGen guardFin key testOutcomes eo mo ho se sm sh
        sumOutcomes now).summary = cand.summary := by
  have ha : effectAction cand guardGen guardFin = EffectAction.idle := by
    simp [effectAction, h]
  refine ⟨?_, ?_, ?_⟩ <;> simp [effectRun, ha]

/-- C9 witness: the effect applied to a concrete completed session. -/
theorem finalize_idempotent_on_completed_witness :
    effectRun completedCandidate false false validKey [] [] [] [] [] [] [] [] "t" =
      completedCandidate
    ∧ (effectRun completedCandidate false false validKey [] [] [] [] [] [] [] [] "t").score =
      completedCandidate.score
    ∧ (effectRun completedCandidate false false validKey [] [] [] [] [] [] [] [] "t").summary =
      completedCandidate.summary :=
  finalize_idempotent_on_completed completedCandidate false false validKey
    [] [] [] [] [] [] [] [] "t" rfl

/-- C10: updateCandidate with an unmatched id leaves the store unchanged;
with a matched id it replaces only that candidate's entry, every other entry
and the remaining store fields staying as they were. -/
theorem update_candidate_frame (st : StoreState) (payload : CandidateUpdate) :
    ((∀ c ∈ st.candidates, c.id ≠ payload.id) → updateCandidateReducer st payload = st)
    ∧ (updateCandidateReducer st payload).currentCandidateId = st.currentCandidateId
    ∧ (updateCandidateReducer st payload).activeTab = st.activeTab
    ∧ (updateCandidateReducer st payload).viewMode = st.viewMode
    ∧ (∀ (pre post : List Candidate) (cur : Candidate),
        st.candidates = pre ++ cur :: post →
        (∀ c ∈ pre, c.id ≠ payload.id) →
        cur.id = payload.id →
        (updateCandidateReducer st payload).candidates =
          pre ++ mergeCandidate cur payload :: post) := by
  refine ⟨?_, rfl, rfl, rfl, ?_⟩
  · intro hall
    have hl := updateCandidatesList_no_match payload st.candidates hall
    simp only [updateCandidateReducer, hl]
  · intro pre post cur hsplit hpre hcur
    simp only [updateCandidateReducer, hsplit]
    exact updateCandidatesList_match payload cur post hcur pre hpre

/-- C10 witness: an unmatched update leaves the concrete store unchanged and
a matched one rewrites only candidate b. -/
theorem update_candidate_frame_witness :
    updateCandidateReducer storeA payloadZ = storeA
    ∧ (updateCandidateReducer storeA payloadB).candidates =
      [candA] ++ mergeCandidate candB payloadB :: [] :=
  ⟨(update_candidate_frame storeA payloadZ).1 (by decide),
   (update_candidate_frame storeA payloadB).2.2.2.2 [candA] [] candB rfl
     (by decide) rfl⟩

end InterviewApp
